import Mathlib

/-!
Shallow embedding of the AI provider abstraction of `ai_providers.py`
(together with the sampling configuration of `config.py`) from the
streamlit-nyayai repository, and proofs about it.

Modelling conventions:
* The remote gateway (an HTTP `requests.Session.post` to the OpenRouter
  completions endpoint) is modelled as an oracle function
  `Gateway : Request → HttpResult`.  A `Request` records the URL, the HTTP
  headers carried by the session, and the JSON body that the Python code
  passes to `post`.
* Exceptions are modelled as values: `HttpResult.netError` stands for an
  exception raised by `post` itself (network failure), a status `s` with
  `statusIsError s` makes `raise_for_status` raise, and a `none` body stands
  for a `.json()` decoding failure.  The Python `try/except` blocks become
  the corresponding `match` branches.
* Each provider method returns, besides its Python return value, the updated
  object state and the list of HTTP requests it issued, so that "no network
  call" and state-transition claims are statable.
* The four provider classes of the source are textually identical except for
  the model identifier, the sampling parameters of the generation call, and
  whether a `"headers"` key is placed inside the JSON body; those per-class
  constants are gathered in `ProviderClass`, and the four classes are the
  four concrete `ProviderClass` values below.
-/

namespace NyayAI

/-- One role/content pair of the `messages` array of a chat completion
request. -/
structure Message where
  role : String
  content : String
deriving DecidableEq

/-- The JSON body that an adapter passes to `Session.post` via the `json=`
keyword.  A field holding `none` is absent from the JSON object.  The
`headers` field models the (misplaced) `"headers"` key that the DeepSeek and
Nemotron adapters put inside the body. -/
structure RequestBody where
  model : String
  messages : List Message
  temperature : ℚ
  max_tokens : ℕ
  top_p : Option ℚ := none
  presence_penalty : Option ℚ := none
  frequency_penalty : Option ℚ := none
  headers : Option (List (String × String)) := none
deriving DecidableEq

/-- An HTTP request as issued by the adapters: the URL, the HTTP headers set
on the session, and the JSON body. -/
structure Request where
  url : String
  headers : List (String × String)
  body : RequestBody
deriving DecidableEq

/-- One completion choice of the gateway response; the code only reads
`choices[0]["message"]["content"]`. -/
structure Choice where
  message : Message
deriving DecidableEq

/-- The parsed JSON of a gateway response; the code only consumes the
`choices` array (`response_json.get("choices")`). -/
structure ResponseJson where
  choices : List Choice
deriving DecidableEq

/-- Outcome of one `Session.post` call as observed by the adapter:
`netError` is an exception raised by `post` itself; otherwise a status code
and a body (`none` when `.json()` raises). -/
inductive HttpResult where
  | netError : HttpResult
  | response : ℕ → Option ResponseJson → HttpResult
deriving DecidableEq

/-- The remote gateway, as an oracle mapping each issued request to its
outcome. -/
def Gateway : Type := Request → HttpResult

/-- The `requests` library's `raise_for_status` raises exactly for 4xx and
5xx status codes. -/
def statusIsError (s : ℕ) : Bool := 400 ≤ s && s < 600

/-- The shared sampling configuration `MODEL_CONFIG` of `config.py`. -/
structure ModelConfig where
  temperature : ℚ
  max_tokens : ℕ
  top_p : ℚ
  presence_penalty : ℚ
  frequency_penalty : ℚ
deriving DecidableEq

/-- `MODEL_CONFIG` of `config.py`: temperature 0.3, max_tokens 300,
top_p 0.8, presence_penalty 0.1, frequency_penalty 0.1. -/
def MODEL_CONFIG : ModelConfig :=
  { temperature := 0.3
    max_tokens := 300
    top_p := 0.8
    presence_penalty := 0.1
    frequency_penalty := 0.1 }

/-- The per-class constants distinguishing the four provider classes of
`ai_providers.py`: the remote model identifier, the sampling parameters used
by `generate_content`, and the optional `"headers"` key placed inside the
generation request body. -/
structure ProviderClass where
  model : String
  gen_temperature : ℚ
  gen_max_tokens : ℕ
  gen_top_p : ℚ
  gen_body_headers : Option (List (String × String))
deriving DecidableEq

/-- The `GeminiProvider` class constants: generation uses the shared
`MODEL_CONFIG` values and no body-level `"headers"` key. -/
def GeminiProviderClass : ProviderClass :=
  { model := "google/gemini-pro-1.5"
    gen_temperature := MODEL_CONFIG.temperature
    gen_max_tokens := MODEL_CONFIG.max_tokens
    gen_top_p := MODEL_CONFIG.top_p
    gen_body_headers := none }

/-- The `OpenAIProvider` class constants. -/
def OpenAIProviderClass : ProviderClass :=
  { model := "openai/gpt-3.5-turbo"
    gen_temperature := MODEL_CONFIG.temperature
    gen_max_tokens := MODEL_CONFIG.max_tokens
    gen_top_p := MODEL_CONFIG.top_p
    gen_body_headers := none }

/-- The `DeepSeekProvider` class constants: generation hardcodes
temperature 0.7, max_tokens 2000, top_p 0.95 and puts a `"headers"` object
inside the JSON body. -/
def DeepSeekProviderClass : ProviderClass :=
  { model := "deepseek/deepseek-chat-v3.1"
    gen_temperature := 0.7
    gen_max_tokens := 2000
    gen_top_p := 0.95
    gen_body_headers := some [("HTTP-Referer", "https://github.com/copilot")] }

/-- The `NemotronProvider` class constants: same hardcoded sampling values
as DeepSeek. -/
def NemotronProviderClass : ProviderClass :=
  { model := "nvidia/nemotron-nano-12b-v2-vl:free"
    gen_temperature := 0.7
    gen_max_tokens := 2000
    gen_top_p := 0.95
    gen_body_headers := some [("HTTP-Referer", "https://github.com/copilot")] }

/-- The HTTP session object: in the source it is a `requests.Session` whose
headers were set by `headers.update` in `initialize`; only those headers are
relevant to the embedding. -/
structure Session where
  headers : List (String × String)
deriving DecidableEq

/-- Python's `str.strip()` with no argument: remove leading and trailing
whitespace.  Modelled structurally on the character list so that the kernel
can evaluate it on concrete credentials. -/
def pyStrip (s : String) : String :=
  ⟨((s.data.dropWhile Char.isWhitespace).reverse.dropWhile
      Char.isWhitespace).reverse⟩

/-- Python's `str.lower()` restricted to ASCII (the only case the fixed tag
set exercises), modelled structurally on the character list. -/
def pyLower (s : String) : String := ⟨s.data.map Char.toLower⟩

/-- The mutable state of a provider adapter instance: the class it belongs
to, `self.api_key`, `self.session` and `self._initialized`. -/
structure Provider where
  cls : ProviderClass
  api_key : String
  session : Option Session
  initialized : Bool
deriving DecidableEq

/-- The `__init__` method shared by the four classes:
`self.api_key = api_key.strip()`, `self.session = None`,
`self._initialized = False`. -/
def Provider.new (cls : ProviderClass) (api_key : String) : Provider :=
  { cls := cls
    api_key := pyStrip api_key
    session := none
    initialized := false }

/-- The fixed OpenRouter completions endpoint used by every call. -/
def completionsUrl : String := "https://openrouter.ai/api/v1/chat/completions"

/-- The headers installed on the session by `initialize` via
`self.session.headers.update`, including the Authorization bearer header
built from the stored (stripped) credential. -/
def sessionHeaders (api_key : String) : List (String × String) :=
  [("HTTP-Referer", "https://github.com/copilot"),
   ("Authorization", "Bearer " ++ api_key),
   ("Content-Type", "application/json")]

/-- The probe request posted by `initialize`: literal prompt "Test",
the shared configured temperature, and a fixed budget of 10 tokens. -/
def probeRequest (cls : ProviderClass) (api_key : String) : Request :=
  { url := completionsUrl
    headers := sessionHeaders api_key
    body :=
      { model := cls.model
        messages := [{ role := "user", content := "Test" }]
        temperature := MODEL_CONFIG.temperature
        max_tokens := 10 } }

/-- The generation request posted by `generate_content` for a given prompt,
using the session's headers and the class's sampling constants. -/
def genRequest (cls : ProviderClass) (sess : Session) (prompt : String) :
    Request :=
  { url := completionsUrl
    headers := sess.headers
    body :=
      { model := cls.model
        messages := [{ role := "user", content := prompt }]
        temperature := cls.gen_temperature
        max_tokens := cls.gen_max_tokens
        top_p := some cls.gen_top_p
        headers := cls.gen_body_headers } }

/-- Embedding of the `initialize` method (identical in the four classes up
to the class constants).  It builds a fresh session with the bearer header,
posts the probe request, and sets `_initialized` only when the call returned
a non-error status, a decodable body, and a non-empty `choices` array; every
exception path returns `False` with the session already assigned.  The
result is `(return value, updated self, issued requests)`. -/
def Provider.init (gw : Gateway) (p : Provider) :
    Bool × Provider × List Request :=
  let p1 : Provider := { p with session := some { headers := sessionHeaders p.api_key } }
  let req : Request := probeRequest p.cls p.api_key
  match gw req with
  | HttpResult.netError => (false, p1, [req])
  | HttpResult.response status body =>
    if statusIsError status then (false, p1, [req])
    else
      match body with
      | none => (false, p1, [req])
      | some rj =>
        match rj.choices with
        | [] => (false, p1, [req])
        | _ :: _ => (true, { p1 with initialized := true }, [req])

/-- What `generate_content` extracts from a gateway outcome: `none` on any
exception (network failure, error status, undecodable body) and on a missing
or empty `choices` array, otherwise the first choice's `message.content`. -/
def parseGen (r : HttpResult) : Option String :=
  match r with
  | HttpResult.netError => none
  | HttpResult.response status body =>
    if statusIsError status then none
    else
      match body with
      | none => none
      | some rj =>
        match rj.choices with
        | [] => none
        | c :: _ => some c.message.content

/-- Embedding of the `generate_content` method (identical in the four
classes up to the class constants).  When `_initialized` is false it returns
`None` without posting; with no session object the post raises and the
exception handler returns `None`; otherwise it posts one generation request
and parses the first choice, with every exception path yielding `None`. -/
def Provider.generate_content (gw : Gateway) (p : Provider) (prompt : String) :
    Option String × Provider × List Request :=
  if !p.initialized then (none, p, [])
  else
    match p.session with
    | none => (none, p, [])
    | some sess =>
      let req : Request := genRequest p.cls sess prompt
      match gw req with
      | HttpResult.netError => (none, p, [req])
      | HttpResult.response status body =>
        if statusIsError status then (none, p, [req])
        else
          match body with
          | none => (none, p, [req])
          | some rj =>
            match rj.choices with
            | [] => (none, p, [req])
            | c :: _ => (some c.message.content, p, [req])

/-- Embedding of the `is_available` method:
`self._initialized and self.session is not None`.  It is given the same
result shape as the other methods to make "no state change, no request"
statable. -/
def Provider.is_available (p : Provider) : Bool × Provider × List Request :=
  (p.initialized && p.session.isSome, p, [])

/-- The `providers` dictionary of `create_ai_provider`, as an association
list from lowercase tag to class. -/
def providerTable : List (String × ProviderClass) :=
  [("gemini", GeminiProviderClass),
   ("openai", OpenAIProviderClass),
   ("deepseek", DeepSeekProviderClass),
   ("nemotron", NemotronProviderClass)]

/-- Embedding of the factory `create_ai_provider`: looks the lowercased tag
up in the table; unknown tags yield `None` with no request; otherwise it
constructs the adapter on the unmodified credential, runs `initialize`, and
returns the adapter exactly when initialization returned `True`. -/
def create_ai_provider (gw : Gateway) (provider_type api_key : String) :
    Option Provider × List Request :=
  match providerTable.lookup (pyLower provider_type) with
  | none => (none, [])
  | some cls =>
    let p := Provider.new cls api_key
    match p.init gw with
    | (true, p1, tr) => (some p1, tr)
    | (false, _, tr) => (none, tr)

/-- An operation a client can perform on an adapter handed out by the
factory (the repository never calls `initialize` again on an existing
instance). -/
inductive Op where
  | genContent : Gateway → String → Op
  | availCheck : Op

/-- The state reached after performing one client operation. -/
def Provider.applyOp (p : Provider) : Op → Provider
  | Op.genContent gw prompt => (p.generate_content gw prompt).2.1
  | Op.availCheck => (p.is_available).2.1

/-- The state reached after a sequence of client operations. -/
def Provider.runOps (p : Provider) : List Op → Provider
  | [] => p
  | op :: ops => (p.applyOp op).runOps ops

/-- Boolean outcome of the probe as a function of the gateway's answer:
true exactly when the status is non-error, the body decodes, and `choices`
is non-empty. -/
def probeOk (r : HttpResult) : Bool :=
  match r with
  | HttpResult.netError => false
  | HttpResult.response status body =>
    if statusIsError status then false
    else
      match body with
      | none => false
      | some rj => !rj.choices.isEmpty

/-- Session/flag invariant of an adapter: the initialized flag implies the
session object exists. -/
def sessionInv (p : Provider) : Bool := !p.initialized || p.session.isSome

/-- A gateway that always answers with one well-formed completion choice. -/
def gwGood : Gateway :=
  fun _ => HttpResult.response 200 (some { choices := [{ message := { role := "assistant", content := "ok" } }] })

/-- A gateway on which every post raises a network exception. -/
def gwDown : Gateway := fun _ => HttpResult.netError

/-- A gateway that always answers HTTP 401 with a decodable error body. -/
def gwUnauthorized : Gateway :=
  fun _ => HttpResult.response 401 (some { choices := [] })

theorem Provider.init_eq (gw : Gateway) (p : Provider) :
    p.init gw =
      (probeOk (gw (probeRequest p.cls p.api_key)),
       { p with
          session := some { headers := sessionHeaders p.api_key }
          initialized :=
            p.initialized || probeOk (gw (probeRequest p.cls p.api_key)) },
       [probeRequest p.cls p.api_key]) := by
  simp only [Provider.init, probeOk]
  rcases gw (probeRequest p.cls p.api_key) with _ | ⟨status, body⟩
  · simp
  · by_cases hs : statusIsError status
    · simp [hs]
    · rcases body with _ | rj
      · simp [hs]
      · rcases hc : rj.choices with _ | ⟨c, cs⟩ <;> simp [hs, hc]

theorem Provider.gen_ready_eq (gw : Gateway) (cls : ProviderClass)
    (key : String) (sess : Session) (prompt : String) :
    Provider.generate_content gw
        { cls := cls, api_key := key, session := some sess, initialized := true }
        prompt =
      (parseGen (gw (genRequest cls sess prompt)),
       { cls := cls, api_key := key, session := some sess, initialized := true },
       [genRequest cls sess prompt]) := by
  simp only [Provider.generate_content, parseGen]
  rcases gw (genRequest cls sess prompt) with _ | ⟨status, body⟩
  · simp
  · by_cases hs : statusIsError status
    · simp [hs]
    · rcases body with _ | rj
      · simp [hs]
      · rcases hc : rj.choices with _ | ⟨c, cs⟩ <;> simp [hs, hc]

theorem Provider.gen_state_eq (gw : Gateway) (p : Provider) (prompt : String) :
    (p.generate_content gw prompt).2.1 = p := by
  simp only [Provider.generate_content]
  rcases p.initialized with _ | _
  · simp
  · rcases p.session with _ | sess
    · simp
    · simp only [Bool.not_true, Bool.false_eq_true, if_false]
      rcases gw (genRequest p.cls sess prompt) with _ | ⟨status, body⟩
      · simp
      · by_cases hs : statusIsError status
        · simp [hs]
        · rcases body with _ | rj
          · simp [hs]
          · rcases hc : rj.choices with _ | ⟨c, cs⟩ <;> simp [hs, hc]

theorem Provider.applyOp_eq_self (p : Provider) (op : Op) :
    p.applyOp op = p := by
  rcases op with ⟨gw, prompt⟩ | _
  · exact p.gen_state_eq gw prompt
  · rfl

theorem Provider.runOps_eq_self (p : Provider) (ops : List Op) :
    p.runOps ops = p := by
  induction ops with
  | nil => rfl
  | cons op ops ih =>
    show (p.applyOp op).runOps ops = p
    rw [p.applyOp_eq_self op]
    exact ih

theorem probeOk_eq_true_iff (r : HttpResult) :
    probeOk r = true ↔
      ∃ status rj, r = HttpResult.response status (some rj) ∧
        statusIsError status = false ∧ rj.choices ≠ [] := by
  rcases r with _ | ⟨status, body⟩
  · simp [probeOk]
  · rcases body with _ | rj
    · simp [probeOk]
    · by_cases hs : statusIsError status
      · simp [probeOk, hs]
      · simp only [Bool.not_eq_true] at hs
        simp only [probeOk, hs, if_false, Bool.not_eq_true', List.isEmpty_iff,
          HttpResult.response.injEq, Option.some.injEq]
        constructor
        · intro h
          refine ⟨status, rj, ⟨rfl, rfl⟩, hs, ?_⟩
          simpa [List.isEmpty_iff] using h
        · rintro ⟨s, rj2, ⟨rfl, rfl⟩, -, h⟩
          simpa [List.isEmpty_iff] using h

/-- Claim C1: `create_ai_provider` matches the backend name
case-insensitively against the fixed tag set gemini/openai/deepseek/nemotron;
an unknown tag yields `none` with no network request; a known tag constructs
the matching adapter on the unmodified credential, immediately runs
`initialize`, and returns the adapter exactly when initialization returned
true. -/
theorem claimC1_factory (gw : Gateway) (name key : String) :
    providerTable.map Prod.fst = ["gemini", "openai", "deepseek", "nemotron"] ∧
    (providerTable.lookup (pyLower name) = none →
      create_ai_provider gw name key = (none, [])) ∧
    (∀ cls : ProviderClass, providerTable.lookup (pyLower name) = some cls →
      (Provider.new cls key).api_key = pyStrip key ∧
      create_ai_provider gw name key =
        (if ((Provider.new cls key).init gw).1 = true
          then some ((Provider.new cls key).init gw).2.1 else none,
         ((Provider.new cls key).init gw).2.2)) := by
  refine ⟨rfl, ?_, ?_⟩
  · intro h
    simp only [create_ai_provider, h]
  · intro cls h
    refine ⟨rfl, ?_⟩
    simp only [create_ai_provider, h]
    rcases hI : (Provider.new cls key).init gw with ⟨b, p1, tr⟩
    rcases b with _ | _ <;> simp

/-- Witness for C1: the unknown tag "llama" yields `none` with no request,
and the tag "GEMINI" (upper case) against an accepting gateway yields the
initialized Gemini adapter. -/
theorem claimC1_factory_witness :
    (providerTable.lookup (pyLower "llama") = none ∧
      create_ai_provider gwGood "llama" "k" = (none, [])) ∧
    (providerTable.lookup (pyLower "GEMINI") = some GeminiProviderClass ∧
      (Provider.new GeminiProviderClass " k ").api_key = pyStrip " k " ∧
      create_ai_provider gwGood "GEMINI" " k " =
        (if ((Provider.new GeminiProviderClass " k ").init gwGood).1 = true
          then some ((Provider.new GeminiProviderClass " k ").init gwGood).2.1
          else none,
         ((Provider.new GeminiProviderClass " k ").init gwGood).2.2)) := by
  have h1 := (claimC1_factory gwGood "llama" "k").2.1 (by rfl)
  have h2 := (claimC1_factory gwGood "GEMINI" " k ").2.2 GeminiProviderClass (by rfl)
  exact ⟨⟨rfl, h1⟩, rfl, h2.1, h2.2⟩

/-- Claim C2: for every adapter and gateway outcome, `initialize` issues
exactly one probe request, whose prompt is the literal "Test" and whose
token budget is 10; it returns true exactly when the gateway answered with a
non-error status, a decodable body, and at least one completion choice;
every exception outcome (network failure, 4xx/5xx status such as 401,
undecodable body) yields false rather than an escaping exception. -/
theorem claimC2_probe (gw : Gateway) (p : Provider) :
    (p.init gw).2.2 = [probeRequest p.cls p.api_key] ∧
    (probeRequest p.cls p.api_key).body.messages
      = [{ role := "user", content := "Test" }] ∧
    (probeRequest p.cls p.api_key).body.max_tokens = 10 ∧
    (p.init gw).1 = probeOk (gw (probeRequest p.cls p.api_key)) ∧
    ((p.init gw).1 = true ↔
      ∃ status rj,
        gw (probeRequest p.cls p.api_key) = HttpResult.response status (some rj) ∧
        statusIsError status = false ∧ rj.choices ≠ []) := by
  refine ⟨?_, rfl, rfl, ?_, ?_⟩
  · rw [p.init_eq gw]
  · rw [p.init_eq gw]
  · rw [p.init_eq gw]
    exact probeOk_eq_true_iff (gw (probeRequest p.cls p.api_key))

/-- Claim C3: on an initialized adapter, `generate_content` issues one
generation request and returns exactly what `parseGen` extracts from the
gateway's answer: `none` when the `choices` array is empty or the body is
missing it, the first choice's `message.content` otherwise, and `none` on
any exception (network failure or error status such as 401). -/
theorem claimC3_generate (cls : ProviderClass) (key : String) (sess : Session)
    (gw : Gateway) (prompt X : String) :
    (Provider.generate_content gw
        { cls := cls, api_key := key, session := some sess, initialized := true }
        prompt).1
      = parseGen (gw (genRequest cls sess prompt)) ∧
    (Provider.generate_content gw
        { cls := cls, api_key := key, session := some sess, initialized := true }
        prompt).2.2
      = [genRequest cls sess prompt] ∧
    parseGen (HttpResult.response 200 (some { choices := [] })) = none ∧
    parseGen (HttpResult.response 200
        (some { choices := [{ message := { role := "assistant", content := X } }] }))
      = some X ∧
    parseGen HttpResult.netError = none ∧
    parseGen (HttpResult.response 401
        (some { choices := [{ message := { role := "assistant", content := X } }] }))
      = none := by
  refine ⟨?_, ?_, rfl, rfl, rfl, rfl⟩
  · rw [Provider.gen_ready_eq]
  · rw [Provider.gen_ready_eq]

/-- Claim C4: an adapter whose initialization has not succeeded returns
`none` from `generate_content` immediately, with unchanged state and no
network request, for every prompt and every gateway. -/
theorem claimC4_not_ready (cls : ProviderClass) (key : String)
    (os : Option Session) (gw : Gateway) (prompt : String) :
    Provider.generate_content gw
        { cls := cls, api_key := key, session := os, initialized := false }
        prompt
      = (none,
         { cls := cls, api_key := key, session := os, initialized := false },
         []) := rfl

/-- Counterexample for C5 as stated: the generation request issued by an
initialized Gemini adapter carries no presence-penalty and no
frequency-penalty field at all, so it does not carry the configured
presence penalty 0.1 and frequency penalty 0.1. -/
theorem claimC5_counterexample :
    (Provider.generate_content gwDown
        { cls := GeminiProviderClass, api_key := "k",
          session := some { headers := sessionHeaders "k" },
          initialized := true } "q").2.2
      = [genRequest GeminiProviderClass { headers := sessionHeaders "k" } "q"] ∧
    (genRequest GeminiProviderClass { headers := sessionHeaders "k" } "q").body.presence_penalty
      ≠ some MODEL_CONFIG.presence_penalty ∧
    (genRequest GeminiProviderClass { headers := sessionHeaders "k" } "q").body.frequency_penalty
      ≠ some MODEL_CONFIG.frequency_penalty := by
  refine ⟨rfl, ?_, ?_⟩ <;> simp [genRequest]

/-- Claim C5 as amended: every generation request of an initialized adapter
is the one `genRequest` builds; the Gemini and OpenAI adapters fill it with
the configured temperature 0.3, max_tokens 300 and top_p 0.8, the DeepSeek
and Nemotron adapters with the hardcoded temperature 0.7, max_tokens 2000
and top_p 0.95; no adapter places the configured presence or frequency
penalty in the request body. -/
theorem claimC5_sampling (cls : ProviderClass) (key : String) (sess : Session)
    (gw : Gateway) (prompt : String) :
    (Provider.generate_content gw
        { cls := cls, api_key := key, session := some sess, initialized := true }
        prompt).2.2
      = [genRequest cls sess prompt] ∧
    (genRequest cls sess prompt).body.presence_penalty = none ∧
    (genRequest cls sess prompt).body.frequency_penalty = none ∧
    (genRequest GeminiProviderClass sess prompt).body.temperature
      = MODEL_CONFIG.temperature ∧
    (genRequest GeminiProviderClass sess prompt).body.max_tokens
      = MODEL_CONFIG.max_tokens ∧
    (genRequest GeminiProviderClass sess prompt).body.top_p
      = some MODEL_CONFIG.top_p ∧
    (genRequest OpenAIProviderClass sess prompt).body.temperature
      = MODEL_CONFIG.temperature ∧
    (genRequest OpenAIProviderClass sess prompt).body.max_tokens
      = MODEL_CONFIG.max_tokens ∧
    (genRequest OpenAIProviderClass sess prompt).body.top_p
      = some MODEL_CONFIG.top_p ∧
    (genRequest DeepSeekProviderClass sess prompt).body.temperature = 0.7 ∧
    (genRequest DeepSeekProviderClass sess prompt).body.max_tokens = 2000 ∧
    (genRequest DeepSeekProviderClass sess prompt).body.top_p = some 0.95 ∧
    (genRequest NemotronProviderClass sess prompt).body.temperature = 0.7 ∧
    (genRequest NemotronProviderClass sess prompt).body.max_tokens = 2000 ∧
    (genRequest NemotronProviderClass sess prompt).body.top_p = some 0.95 := by
  refine ⟨?_, rfl, rfl, rfl, rfl, rfl, rfl, rfl, rfl, rfl, rfl, rfl, rfl, rfl, rfl⟩
  rw [Provider.gen_ready_eq]

/-- Claim C6: an adapter is constructed not ready; a successful `initialize`
makes it ready and a failed one leaves its readiness unchanged (so a freshly
constructed instance stays not ready); the client operations
`generate_content` and `is_available` never change the instance state at
all, hence a ready instance stays ready and a not-ready instance stays not
ready for the rest of its lifetime. -/
theorem claimC6_lifecycle (cls : ProviderClass) (key : String) (gw : Gateway)
    (p : Provider) (ops : List Op) :
    (Provider.new cls key).initialized = false ∧
    ((p.init gw).1 = true → (p.init gw).2.1.initialized = true) ∧
    ((p.init gw).1 = false → (p.init gw).2.1.initialized = p.initialized) ∧
    p.runOps ops = p := by
  refine ⟨rfl, ?_, ?_, p.runOps_eq_self ops⟩
  · intro h
    rw [p.init_eq gw] at h ⊢
    dsimp only at h ⊢
    simp [h]
  · intro h
    rw [p.init_eq gw] at h ⊢
    dsimp only at h ⊢
    simp [h]

/-- Witness for C6: concrete runs of the lifecycle on a fresh Gemini
adapter, with a gateway that accepts the probe and one that is down. -/
theorem claimC6_lifecycle_witness :
    (Provider.new GeminiProviderClass "k").initialized = false ∧
    ((Provider.new GeminiProviderClass "k").init gwGood).2.1.initialized = true ∧
    ((Provider.new GeminiProviderClass "k").init gwDown).2.1.initialized
      = (Provider.new GeminiProviderClass "k").initialized ∧
    (Provider.new GeminiProviderClass "k").runOps [Op.availCheck]
      = Provider.new GeminiProviderClass "k" := by
  have h1 := claimC6_lifecycle GeminiProviderClass "k" gwGood
    (Provider.new GeminiProviderClass "k") [Op.availCheck]
  have h2 := claimC6_lifecycle GeminiProviderClass "k" gwDown
    (Provider.new GeminiProviderClass "k") []
  exact ⟨h1.1, h1.2.1 (by rfl), h2.2.2.1 (by rfl), h1.2.2.2⟩

/-- Claim C7: `is_available` is the pure predicate "initialized and the
session object exists": it issues no request, leaves the state unchanged,
any number of repeated calls still leaves the state unchanged, and on a
ready adapter it returns true. -/
theorem claimC7_available (p : Provider) (n : ℕ) (cls : ProviderClass)
    (key : String) (sess : Session) :
    Provider.is_available p = (p.initialized && p.session.isSome, p, []) ∧
    ((p.is_available).1 = true ↔
      p.initialized = true ∧ p.session.isSome = true) ∧
    p.runOps (List.replicate n Op.availCheck) = p ∧
    (Provider.is_available
        { cls := cls, api_key := key, session := some sess,
          initialized := true }).1 = true := by
  exact ⟨rfl, iff_of_eq (Bool.and_eq_true p.initialized p.session.isSome),
    p.runOps_eq_self (List.replicate n Op.availCheck), rfl⟩

/-- Claim C8: the constructor strips the credential, the probe request and
the session installed by `initialize` carry the Authorization header
"Bearer " followed by the stripped credential, generation requests reuse
exactly the session's headers, and for the credential " secret123 " the
header value is exactly "Bearer secret123". -/
theorem claimC8_credential (cls : ProviderClass) (key : String) (gw : Gateway)
    (sess : Session) (prompt : String) :
    (Provider.new cls key).api_key = pyStrip key ∧
    ((Provider.new cls key).init gw).2.2 = [probeRequest cls (pyStrip key)] ∧
    List.lookup "Authorization" (probeRequest cls (pyStrip key)).headers
      = some ("Bearer " ++ pyStrip key) ∧
    ((Provider.new cls key).init gw).2.1.session
      = some { headers := sessionHeaders (pyStrip key) } ∧
    (genRequest cls sess prompt).headers = sess.headers ∧
    List.lookup "Authorization"
        (probeRequest GeminiProviderClass (pyStrip " secret123 ")).headers
      = some "Bearer secret123" := by
  refine ⟨rfl, ?_, rfl, ?_, rfl, by decide⟩
  · rw [Provider.init_eq]
    simp [Provider.new]
  · rw [Provider.init_eq]
    simp [Provider.new]

/-- Claim C9: the invariant "initialized implies the session exists" holds
after construction, after `initialize` (which assigns the session before it
ever sets the flag), and after every client operation; under it,
`is_available` returns exactly the initialized flag. -/
theorem claimC9_invariant (cls : ProviderClass) (key : String) (gw : Gateway)
    (p : Provider) (op : Op) :
    sessionInv (Provider.new cls key) = true ∧
    sessionInv ((p.init gw).2.1) = true ∧
    (sessionInv p = true → sessionInv (p.applyOp op) = true) ∧
    (sessionInv p = true → (p.is_available).1 = p.initialized) := by
  refine ⟨rfl, ?_, ?_, ?_⟩
  · rw [p.init_eq gw]
    simp [sessionInv]
  · intro h
    rw [p.applyOp_eq_self op]
    exact h
  · intro h
    rcases hI : p.initialized with _ | _
    · simp [Provider.is_available, hI]
    · simp only [sessionInv, hI, Bool.not_true, Bool.false_or] at h
      simp [Provider.is_available, hI, h]

/-- Witness for C9: the invariant holds concretely on a fresh Gemini
adapter, is preserved by an `is_available` call, and `is_available` agrees
with the flag there. -/
theorem claimC9_invariant_witness :
    sessionInv (Provider.new GeminiProviderClass "k") = true ∧
    sessionInv (((Provider.new GeminiProviderClass "k").init gwDown).2.1) = true ∧
    sessionInv ((Provider.new GeminiProviderClass "k").applyOp Op.availCheck)
      = true ∧
    ((Provider.new GeminiProviderClass "k").is_available).1
      = (Provider.new GeminiProviderClass "k").initialized := by
  have h := claimC9_invariant GeminiProviderClass "k" gwDown
    (Provider.new GeminiProviderClass "k") Op.availCheck
  exact ⟨h.1, h.2.1, h.2.2.1 h.1, h.2.2.2 h.1⟩

/-- Claim C10: the DeepSeek and Nemotron generation requests place a
"headers" object holding the upstream-identification referer inside the JSON
body, while their HTTP headers are exactly the session's (those installed by
`initialize`); the Gemini and OpenAI generation requests carry no such body
field. -/
theorem claimC10_body_headers (sess : Session) (prompt : String)
    (cls : ProviderClass) (key : String) (gw : Gateway) :
    (genRequest DeepSeekProviderClass sess prompt).body.headers
      = some [("HTTP-Referer", "https://github.com/copilot")] ∧
    (genRequest NemotronProviderClass sess prompt).body.headers
      = some [("HTTP-Referer", "https://github.com/copilot")] ∧
    (genRequest GeminiProviderClass sess prompt).body.headers = none ∧
    (genRequest OpenAIProviderClass sess prompt).body.headers = none ∧
    (genRequest DeepSeekProviderClass sess prompt).headers = sess.headers ∧
    (genRequest NemotronProviderClass sess prompt).headers = sess.headers ∧
    ((Provider.new cls key).init gw).2.1.session
      = some { headers := sessionHeaders (pyStrip key) } := by
  refine ⟨rfl, rfl, rfl, rfl, rfl, rfl, ?_⟩
  rw [Provider.init_eq]
  simp [Provider.new]

end NyayAI
